import Mathlib

/-!
Verification of the capture/buffer/flush/shutdown lifecycle of the
n8n-nodes-twitch-chat node, embedded from
src/nodes/TwitchChat/TwitchChat.node.ts (the shipped CSV-streaming node)
and, where noted, from the historical per-message CSV variant
(src/unnamed/part_001).

The node is single-threaded (JS event loop).  The only suspension points
are the awaited sink writes and the awaited connect/disconnect calls; a
message callback can run at exactly those points.  The embedding makes
this explicit: a flush takes, besides the buffer snapshot, the list of
rows appended by message callbacks while the sink write was awaited.
-/

deriving instance DecidableEq for Except

/-- A buffered output row: the list of cell values, in header order. -/
abbrev Row := List String

/-- JS "a || b" on an optional string: undefined and the empty string are
falsy, so both fall through to the default. -/
def orElseStr (v : Option String) (d : String) : String :=
  match v with
  | some s => if s = "" then d else s
  | none => d

/-- Whether escapeCsvValue must quote-wrap: the source tests
strValue.includes(",") || strValue.includes("\"") || strValue.includes("\n"). -/
def needsQuoting (s : String) : Bool :=
  s.data.any (fun c => c == ',' || c == '"' || c == '\n')

/-- The regex replace of every quote by a doubled quote:
strValue.replace of each " by "" (global). -/
def escapeQuotes (s : String) : String :=
  ⟨s.data.foldr (fun c acc => if c == '"' then '"' :: '"' :: acc else c :: acc) []⟩

/-- escapeCsvValue from TwitchChat.node.ts lines 150-157. -/
def escapeCsvValue (value : String) : String :=
  if needsQuoting value then "\"" ++ escapeQuotes value ++ "\"" else value

/-- JS Array.join(sep). -/
def joinSep (sep : String) : List String → String
  | [] => ""
  | [x] => x
  | x :: y :: xs => x ++ sep ++ joinSep sep (y :: xs)

/-- The header cell list of the shipped node (lines 160-164). -/
def headers (includeUserInfo : Bool) : List String :=
  ["Timestamp", "Channel", "Username", "Display Name", "Message"] ++
    (if includeUserInfo then ["User ID", "User Color", "Badges", "Emotes"] else [])

/-- headerLine from line 167: headers.map(escapeCsvValue).join(",") + "\n". -/
def headerLine (includeUserInfo : Bool) : String :=
  joinSep "," ((headers includeUserInfo).map escapeCsvValue) ++ "\n"

/-- The header string written by writeCSVHeader in the historical variant
(src/unnamed/part_001 lines 38-45). -/
def writeCSVHeaderString (includeUserInfo : Bool) : String :=
  "timestamp,channel,username,displayName,message" ++
    (if includeUserInfo then ",userId,userColor,badges,emotes" else "") ++ "\n"

/-- One CSV line of a row: rowData.map(escapeCsvValue).join(","). -/
def csvLine (row : Row) : String :=
  joinSep "," (row.map escapeCsvValue)

/-- The chunk a flush writes (lines 185-187):
messageBuffer.map(...).join("\n") + "\n". -/
def csvLines (rows : List Row) : String :=
  joinSep "\n" (rows.map csvLine) ++ "\n"

/-- One inbound tmi message event, as seen by the message handler.
Optional fields are undefined tags; badgesJson / emotesJson hold the
JSON.stringify image of the badge and emote objects when present. -/
structure InboundMessage where
  timestamp : String
  channel : String
  username : Option String
  displayName : Option String
  message : String
  self : Bool
  userId : Option String
  color : Option String
  badgesJson : Option String
  emotesJson : Option String
deriving DecidableEq

/-- The rowData built by the message handler (lines 239-254). -/
def buildRow (includeUserInfo : Bool) (m : InboundMessage) : Row :=
  [m.timestamp, m.channel, orElseStr m.username "unknown",
   orElseStr m.displayName (orElseStr m.username "unknown"), m.message] ++
  (if includeUserInfo then
     [orElseStr m.userId "", orElseStr m.color "",
      m.badgesJson.getD "", m.emotesJson.getD ""]
   else [])

/-- flushBuffer (lines 180-211).  Returns the new buffer and the chunk
written to the stream (none if nothing was written).
Control flow from the source:
- early return when the buffer is empty or the stream is closed
  (synchronous, so no callback can interleave);
- otherwise csvLines is built from the current buffer, the stream write is
  awaited (arrivals are the rows pushed by message callbacks during that
  await), and on success messageBuffer.length = 0 clears the WHOLE buffer,
  arrivals included; on failure the catch leaves the buffer as is. -/
def flushBuffer (buffer : List Row) (isWriteStreamClosed : Bool)
    (arrivals : List Row) (writeOk : Bool) : List Row × Option String :=
  if buffer.isEmpty || isWriteStreamClosed then (buffer ++ arrivals, none)
  else if writeOk then ([], some (csvLines buffer))
  else (buffer ++ arrivals, none)

/-- The observable events of one session: a message callback firing, or a
periodic flush tick.  A flush tick carries the messages whose callbacks
ran while the sink write was awaited, and whether the write succeeded. -/
inductive SessionEvent
  | msg (m : InboundMessage)
  | flushTick (arrivalsDuringWrite : List InboundMessage) (writeOk : Bool)
deriving DecidableEq

/-- The per-item mutable state of execute: messageBuffer, messageCount,
the chunks written to the append stream so far (in order), and the
isWriteStreamClosed / isCleaningUp flags. -/
structure ExecState where
  messageBuffer : List Row
  messageCount : Nat
  chunks : List String
  isWriteStreamClosed : Bool
  isCleaningUp : Bool
deriving DecidableEq

/-- State at session start: empty buffer, zero count, stream open. -/
def execInit : ExecState :=
  { messageBuffer := [], messageCount := 0, chunks := [],
    isWriteStreamClosed := false, isCleaningUp := false }

/-- One event step.  The message handler (lines 233-260) ignores self
messages, otherwise appends the row and increments messageCount; a flush
tick runs flushBuffer, with the handlers of mid-write arrivals having
pushed their rows and bumped the count. -/
def stepEvent (inc : Bool) (s : ExecState) : SessionEvent → ExecState
  | SessionEvent.msg m =>
      if m.self then s
      else
        { s with
          messageBuffer := s.messageBuffer ++ [buildRow inc m],
          messageCount := s.messageCount + 1 }
  | SessionEvent.flushTick arr writeOk =>
      { s with
        messageBuffer :=
          (flushBuffer s.messageBuffer s.isWriteStreamClosed
            ((arr.filter (fun m => !m.self)).map (buildRow inc)) writeOk).1,
        messageCount := s.messageCount + (arr.filter (fun m => !m.self)).length,
        chunks := s.chunks ++
          (flushBuffer s.messageBuffer s.isWriteStreamClosed
            ((arr.filter (fun m => !m.self)).map (buildRow inc)) writeOk).2.toList }

/-- Run the active phase over an event list. -/
def runSession (inc : Bool) : ExecState → List SessionEvent → ExecState
  | s, [] => s
  | s, e :: es => runSession inc (stepEvent inc s e) es

/-- The messages observed in one event. -/
def eventMessages : SessionEvent → List InboundMessage
  | SessionEvent.msg m => [m]
  | SessionEvent.flushTick arr _ => arr

/-- All messages observed across an event list, in order. -/
def allMessages : List SessionEvent → List InboundMessage
  | [] => []
  | e :: es => eventMessages e ++ allMessages es

/-- The externally visible steps of the cleanup handler. -/
inductive CleanupEvent
  | cancelTimer
  | disconnect
  | finalFlush
  | closeStream
deriving DecidableEq

/-- cleanup (lines 288-318).  Guarded by isCleaningUp; then, in source
order: clearInterval(saveInterval); await client.disconnect() inside a
try/catch whose catch ignores the error (disconnectFails records whether
disconnect threw - the catch discards it, so the remaining steps run
either way); await flushBuffer(); close the write stream if still open.
No message can arrive after the disconnect, so the final flush sees no
mid-write arrivals. -/
def cleanup (s : ExecState) (disconnectFails writeOk : Bool) :
    ExecState × List CleanupEvent :=
  if s.isCleaningUp then (s, [])
  else
    ({ messageBuffer :=
         (flushBuffer s.messageBuffer s.isWriteStreamClosed [] writeOk).1,
       messageCount := s.messageCount,
       chunks := s.chunks ++
         (flushBuffer s.messageBuffer s.isWriteStreamClosed [] writeOk).2.toList,
       isWriteStreamClosed := true,
       isCleaningUp := true },
     [CleanupEvent.cancelTimer, CleanupEvent.disconnect, CleanupEvent.finalFlush] ++
       (if s.isWriteStreamClosed then [] else [CleanupEvent.closeStream]))

/-- The two stop conditions (parameter durationType). -/
inductive DurationType
  | duration
  | untilEnd
deriving DecidableEq

/-- One tick of the 1-second check interval (lines 324-337): resolves when
durationType is untilEnd and isStreamEnded, or when durationType is
duration and elapsed >= maxDuration. -/
def stopCheck : DurationType → Bool → Nat → Nat → Bool
  | DurationType.untilEnd, isStreamEnded, _, _ => isStreamEnded
  | DurationType.duration, _, elapsed, maxDuration => decide (maxDuration ≤ elapsed)

/-- The node parameters of one item.  includeUserInfo and debug are none
when the options collection does not carry them (getNodeParameter then
returns an empty options object and the field reads as undefined). -/
structure NodeParams where
  channelName : String
  durationType : DurationType
  duration : Nat
  outputFilePath : String
  includeUserInfo : Option Bool
  debug : Option Bool
deriving DecidableEq

/-- The truthiness test if (options.includeUserInfo): undefined and false
are falsy, only an explicit true enables the user-info columns. -/
def effectiveIncludeUserInfo (p : NodeParams) : Bool :=
  p.includeUserInfo.getD false

/-- The default declared for the Include User Info option in the node
description (properties, line 90: default: true). -/
def includeUserInfoSchemaDefault : Bool := true

/-- Channel cleaning (lines 136-138): channelName.startsWith("#") ?
channelName.substring(1) : channelName. -/
def cleanChannelName (s : String) : String :=
  if s.data.head? = some '#' then ⟨s.data.drop 1⟩ else s

/-- The success result json (lines 344-352). -/
structure ExecResult where
  channel : String
  messagesCount : Nat
  outputFile : String
  status : String
deriving DecidableEq

/-- File-system operations the node performs on the output file. -/
inductive FsOp
  | writeFile (data : String)
  | appendData (data : String)
deriving DecidableEq

/-- Semantics of the two operations on the (optional) file contents, kept
as the list of written segments: fs.writeFileSync creates or truncates,
discarding previous contents; the append-mode stream write appends. -/
def applyOp (file : Option (List String)) : FsOp → Option (List String)
  | FsOp.writeFile d => some [d]
  | FsOp.appendData d => some (file.getD [] ++ [d])

/-- The file contents after running a list of operations over previous
contents (none if the file did not exist). -/
def fileAfter (prev : Option (List String)) (ops : List FsOp) : Option (List String) :=
  ops.foldl applyOp prev

/-- The side-effecting steps between validation and the wait loop, in
source order (lines 141-174 and 278). -/
inductive StartStep
  | resolvePath
  | ensureDir
  | writeHeader
  | openWriteStream
  | connectClient
deriving DecidableEq

/-- The start of execute for one item (lines 125-174, 278): the two
required-parameter checks run first and throw a NodeOperationError with
the given message; only then do path resolution, directory creation, the
header write, the stream open and the client connect happen. -/
def startPhase (p : NodeParams) : Except String (List StartStep) :=
  if p.channelName = "" then Except.error "Channel name is required"
  else if p.outputFilePath = "" then Except.error "Output file path is required"
  else
    Except.ok [StartStep.resolvePath, StartStep.ensureDir, StartStep.writeHeader,
               StartStep.openWriteStream, StartStep.connectClient]

/-- One full item of execute: validation, the header write (writeFileSync),
the active phase over the observed events, the guaranteed cleanup, and the
success result.  The file-op trace lists the writes in chronological
order.  path.resolve is modeled as the identity (resolution is
environment-relative and not load-bearing for any claim). -/
def execTrace (p : NodeParams) (events : List SessionEvent)
    (disconnectFails finalOk : Bool) : Except String (List FsOp × ExecResult) :=
  if p.channelName = "" then Except.error "Channel name is required"
  else if p.outputFilePath = "" then Except.error "Output file path is required"
  else
    Except.ok
      (FsOp.writeFile (headerLine (effectiveIncludeUserInfo p)) ::
         ((cleanup (runSession (effectiveIncludeUserInfo p) execInit events)
             disconnectFails finalOk).1.chunks.map FsOp.appendData),
       { channel := cleanChannelName p.channelName,
         messagesCount :=
           (cleanup (runSession (effectiveIncludeUserInfo p) execInit events)
               disconnectFails finalOk).1.messageCount,
         outputFile := p.outputFilePath,
         status := "success" })

/-! Concrete values used by witnesses and counterexamples. -/

/-- A concrete non-self message. -/
def m1ex : InboundMessage :=
  { timestamp := "t1", channel := "chan", username := some "alice",
    displayName := some "Alice", message := "hi", self := false,
    userId := none, color := none, badgesJson := none, emotesJson := none }

/-- A second concrete non-self message. -/
def m2ex : InboundMessage :=
  { m1ex with
    timestamp := "t2", username := some "bob",
    displayName := some "Bob", message := "yo" }

/-- A self-echo message. -/
def mSelfEx : InboundMessage :=
  { m1ex with self := true, message := "mine" }

/-- A valid configuration with the user-info flag explicitly off. -/
def pEx : NodeParams :=
  { channelName := "chan", durationType := DurationType.duration,
    duration := 60000, outputFilePath := "/tmp/out.csv",
    includeUserInfo := some false, debug := none }

/-- A configuration whose options collection does not carry the flag. -/
def pNoFlag : NodeParams :=
  { pEx with includeUserInfo := none }

/-- pEx with an empty channel name. -/
def pEmptyChannel : NodeParams :=
  { pEx with channelName := "" }

/-- pEx with an empty output path. -/
def pEmptyPath : NodeParams :=
  { pEx with outputFilePath := "" }

/-- A small event list: a self echo, one real message, one clean flush. -/
def evEx : List SessionEvent :=
  [SessionEvent.msg mSelfEx, SessionEvent.msg m1ex, SessionEvent.flushTick [] true]

/-- The op trace execTrace produces for pEx over evEx. -/
def opsEx : List FsOp :=
  [FsOp.writeFile (headerLine false), FsOp.appendData "t1,chan,alice,Alice,hi\n"]

/-- The result execTrace produces for pEx over evEx. -/
def resEx : ExecResult :=
  { channel := "chan", messagesCount := 1, outputFile := "/tmp/out.csv",
    status := "success" }

/-! Helper lemmas. -/

/-- After any cleanup call the isCleaningUp flag is set. -/
theorem cleanup_flag (s : ExecState) (df ok : Bool) :
    ((cleanup s df ok).1).isCleaningUp = true := by
  unfold cleanup
  split
  · next h => exact h
  · rfl

/-- cleanup is a guarded no-op once the flag is set. -/
theorem cleanup_of_flag (t : ExecState) (df ok : Bool) (h : t.isCleaningUp = true) :
    cleanup t df ok = (t, []) := by
  unfold cleanup
  rw [if_pos h]

/-- cleanup never changes messageCount. -/
theorem cleanup_count (s : ExecState) (df ok : Bool) :
    ((cleanup s df ok).1).messageCount = s.messageCount := by
  unfold cleanup
  split
  · rfl
  · rfl

/-- The running count after the active phase is the initial count plus the
number of non-self messages observed, whatever the flush interleaving. -/
theorem runSession_count (inc : Bool) :
    ∀ (es : List SessionEvent) (s : ExecState),
      (runSession inc s es).messageCount =
        s.messageCount + ((allMessages es).filter (fun m => !m.self)).length := by
  intro es
  induction es with
  | nil => intro s; simp [runSession, allMessages]
  | cons e es ih =>
    intro s
    cases e with
    | msg m =>
      by_cases hm : m.self = true
      · simp [runSession, stepEvent, hm, allMessages, eventMessages, ih]
      · simp [runSession, stepEvent, hm, allMessages, eventMessages, ih]
        omega
    | flushTick arr ok =>
      simp [runSession, stepEvent, allMessages, eventMessages, ih]
      omega

/-- A writeFile at the head of the op list makes the prior contents
irrelevant. -/
theorem fileAfter_writeFile (prev : Option (List String)) (d : String) (ops : List FsOp) :
    fileAfter prev (FsOp.writeFile d :: ops) = fileAfter (some [d]) ops := by
  simp [fileAfter, applyOp]

/-- Folding append operations appends the data in order. -/
theorem fileAfter_appendData :
    ∀ (l : List String) (acc : List String),
      fileAfter (some acc) (l.map FsOp.appendData) = some (acc ++ l) := by
  intro l
  induction l with
  | nil => intro acc; simp [fileAfter]
  | cons d l ih =>
    intro acc
    have h := ih (acc ++ [d])
    simp only [fileAfter, List.map_cons, List.foldl_cons, applyOp, Option.getD_some] at h ⊢
    rw [h]
    simp

/-- Shape of a successful execTrace item. -/
theorem execTrace_ok_shape {p : NodeParams} {events : List SessionEvent}
    {df fk : Bool} {ops : List FsOp} {res : ExecResult}
    (h : execTrace p events df fk = Except.ok (ops, res)) :
    ops = FsOp.writeFile (headerLine (effectiveIncludeUserInfo p)) ::
        ((cleanup (runSession (effectiveIncludeUserInfo p) execInit events)
            df fk).1.chunks.map FsOp.appendData) ∧
    res = { channel := cleanChannelName p.channelName,
            messagesCount :=
              (cleanup (runSession (effectiveIncludeUserInfo p) execInit events)
                  df fk).1.messageCount,
            outputFile := p.outputFilePath,
            status := "success" } := by
  unfold execTrace at h
  split at h
  · exact Except.noConfusion h
  · split at h
    · exact Except.noConfusion h
    · simp only [Except.ok.injEq, Prod.mk.injEq] at h
      exact ⟨h.1.symm, h.2.symm⟩

/-! Claim theorems. -/

/-- Claim C1 (code bug).  flushBuffer does not atomically snapshot and
clear: it builds the csv chunk from the buffer, awaits the sink write, and
only then runs messageBuffer.length = 0, which wipes the whole buffer.  A
record observed during the awaited write (m2ex here: the count reaches 2)
is therefore discarded unwritten: after the flush the buffer is empty and
the file data holds only the m1ex line, contradicting the claim that no
observed record is discarded unwritten. -/
theorem flush_discards_concurrent_record :
    (runSession false execInit
      [SessionEvent.msg m1ex, SessionEvent.flushTick [m2ex] true]).messageCount = 2 ∧
    (runSession false execInit
      [SessionEvent.msg m1ex, SessionEvent.flushTick [m2ex] true]).messageBuffer = [] ∧
    (runSession false execInit
      [SessionEvent.msg m1ex, SessionEvent.flushTick [m2ex] true]).chunks =
      ["t1,chan,alice,Alice,hi\n"] := by
  decide

/-- Claim C2 counterexample.  On a fresh session state the cleanup trace
is cancelTimer, disconnect, finalFlush, closeStream: the disconnect
strictly precedes the final flush, refuting the claimed order (final flush
before disconnect). -/
theorem cleanup_order_counterexample :
    (cleanup execInit false true).2 =
      [CleanupEvent.cancelTimer, CleanupEvent.disconnect, CleanupEvent.finalFlush,
       CleanupEvent.closeStream] ∧
    (cleanup execInit false true).2.findIdx
        (fun e => decide (e = CleanupEvent.disconnect)) <
      (cleanup execInit false true).2.findIdx
        (fun e => decide (e = CleanupEvent.finalFlush)) := by
  decide

/-- Claim C2 (amended).  Finalization performs, in this order: cancel the
pending timer, disconnect the source adapter with errors swallowed (the
outcome of the disconnect changes nothing that follows), await the final
buffer flush, and close the write stream if still open.  The final flush
follows, not precedes, the disconnect. -/
theorem cleanup_order_amended :
    ∀ (s : ExecState) (wk : Bool), s.isCleaningUp = false →
      (∀ df df' : Bool, cleanup s df wk = cleanup s df' wk) ∧
      (cleanup s false wk).2 =
        [CleanupEvent.cancelTimer, CleanupEvent.disconnect, CleanupEvent.finalFlush] ++
          (if s.isWriteStreamClosed then [] else [CleanupEvent.closeStream]) := by
  intro s wk h
  refine ⟨fun df df' => rfl, ?_⟩
  unfold cleanup
  rw [if_neg (by simp [h])]

/-- Concrete instance of the amended C2 theorem. -/
theorem cleanup_order_amended_witness :
    cleanup execInit true true = cleanup execInit false true ∧
    (cleanup execInit false true).2 =
      [CleanupEvent.cancelTimer, CleanupEvent.disconnect, CleanupEvent.finalFlush] ++
        (if execInit.isWriteStreamClosed then [] else [CleanupEvent.closeStream]) :=
  ⟨(cleanup_order_amended execInit true rfl).1 true false,
   (cleanup_order_amended execInit true rfl).2⟩

/-- Claim C3.  When the sink write raises, flushBuffer leaves every
buffered record in place (the snapshot followed by the mid-write arrivals)
and writes nothing; and the buffer can only come out empty when it already
was empty or the write succeeded, so contents are cleared only after a
successful sink write. -/
theorem flush_failure_keeps_buffer :
    (∀ (buf : List Row) (closed : Bool) (arr : List Row),
        flushBuffer buf closed arr false = (buf ++ arr, none)) ∧
    (∀ (buf : List Row) (closed : Bool) (arr : List Row) (ok : Bool),
        (flushBuffer buf closed arr ok).1 = [] →
        buf ++ arr = [] ∨ ok = true) := by
  constructor
  · intro buf closed arr
    unfold flushBuffer
    split
    · rfl
    · rfl
  · intro buf closed arr ok h
    unfold flushBuffer at h
    split at h
    · exact Or.inl h
    · split at h
      · next hok => exact Or.inr hok
      · exact Or.inl h

/-- Concrete instance of the C3 theorem. -/
theorem flush_failure_keeps_buffer_witness :
    flushBuffer [["a"]] false [["b"]] false = ([["a"], ["b"]], none) ∧
    ([["a"]] ++ ([["b"]] : List Row) = [] ∨ true = true) :=
  ⟨flush_failure_keeps_buffer.1 [["a"]] false [["b"]],
   flush_failure_keeps_buffer.2 [["a"]] false [["b"]] true (by decide)⟩

/-- Claim C4.  close is idempotent: a second cleanup invocation on the
state left by a first one returns that state unchanged and performs no
step at all - no double flush, no double disconnect, no double stream
close. -/
theorem cleanup_idempotent (s : ExecState) (df ok df2 ok2 : Bool) :
    cleanup (cleanup s df ok).1 df2 ok2 = ((cleanup s df ok).1, []) :=
  cleanup_of_flag _ df2 ok2 (cleanup_flag s df ok)

/-- Claim C5.  For every valid configuration and every event sequence
(messages and flush ticks in any interleaving, with any write outcomes),
messagesCount in the success result equals the number of non-self messages
observed; and a self-echo message leaves the session state untouched, so
it is neither counted nor buffered for writing. -/
theorem messages_count_correct :
    (∀ (p : NodeParams) (events : List SessionEvent) (df fk : Bool)
        (ops : List FsOp) (res : ExecResult),
        execTrace p events df fk = Except.ok (ops, res) →
        res.messagesCount = ((allMessages events).filter (fun m => !m.self)).length) ∧
    (∀ (inc : Bool) (s : ExecState) (m : InboundMessage),
        m.self = true → stepEvent inc s (SessionEvent.msg m) = s) := by
  constructor
  · intro p events df fk ops res h
    obtain ⟨-, hres⟩ := execTrace_ok_shape h
    subst hres
    rw [show (ExecResult.messagesCount
        { channel := cleanChannelName p.channelName,
          messagesCount :=
            (cleanup (runSession (effectiveIncludeUserInfo p) execInit events)
                df fk).1.messageCount,
          outputFile := p.outputFilePath, status := "success" }) =
        (cleanup (runSession (effectiveIncludeUserInfo p) execInit events)
            df fk).1.messageCount from rfl]
    rw [cleanup_count, runSession_count]
    simp [execInit]
  · intro inc s m hm
    simp [stepEvent, hm]

/-- Concrete instance of the C5 theorem. -/
theorem messages_count_correct_witness :
    resEx.messagesCount = ((allMessages evEx).filter (fun m => !m.self)).length ∧
    stepEvent false execInit (SessionEvent.msg mSelfEx) = execInit :=
  ⟨messages_count_correct.1 pEx evEx false true opsEx resEx (by decide),
   messages_count_correct.2 false execInit mSelfEx (by decide)⟩

/-- Claim C6.  Session start validates the channel identifier and the
output destination: an empty channel name or an empty output file path
makes startPhase fail with the corresponding configuration error, and a
successful start (the only way the file-system and connection steps run)
forces both to be non-empty - so the failure happens before any
connection or file input-output. -/
theorem config_validation :
    (∀ p : NodeParams, p.channelName = "" →
        startPhase p = Except.error "Channel name is required") ∧
    (∀ p : NodeParams, p.channelName ≠ "" → p.outputFilePath = "" →
        startPhase p = Except.error "Output file path is required") ∧
    (∀ (p : NodeParams) (steps : List StartStep),
        startPhase p = Except.ok steps →
        p.channelName ≠ "" ∧ p.outputFilePath ≠ "") := by
  refine ⟨?_, ?_, ?_⟩
  · intro p h
    simp [startPhase, h]
  · intro p h1 h2
    simp [startPhase, h1, h2]
  · intro p steps h
    unfold startPhase at h
    split at h
    · exact Except.noConfusion h
    · split at h
      · exact Except.noConfusion h
      · next h1 h2 => exact ⟨h1, h2⟩

/-- Concrete instance of the C6 theorem. -/
theorem config_validation_witness :
    startPhase pEmptyChannel = Except.error "Channel name is required" ∧
    startPhase pEmptyPath = Except.error "Output file path is required" ∧
    (pEx.channelName ≠ "" ∧ pEx.outputFilePath ≠ "") :=
  ⟨config_validation.1 pEmptyChannel rfl,
   config_validation.2.1 pEmptyPath (by decide) rfl,
   config_validation.2.2 pEx
     [StartStep.resolvePath, StartStep.ensureDir, StartStep.writeHeader,
      StartStep.openWriteStream, StartStep.connectClient] (by decide)⟩

/-- Claim C7 counterexample.  A session of the shipped node (valid
configuration, user info off, no events) writes a header line that is not
the claimed lowercase string, and the user-info header differs from the
claimed extended string as well. -/
theorem header_row_counterexample :
    execTrace pEx [] false true =
      Except.ok ([FsOp.writeFile (headerLine false)],
        { channel := "chan", messagesCount := 0, outputFile := "/tmp/out.csv",
          status := "success" }) ∧
    headerLine false ≠ "timestamp,channel,username,displayName,message\n" ∧
    headerLine true ≠
      "timestamp,channel,username,displayName,message,userId,userColor,badges,emotes\n" := by
  decide

/-- Claim C7 (amended).  The historical per-message variant writes exactly
the claimed lowercase header; the shipped node writes the same field set
with Title-Case names (Timestamp, Channel, Username, Display Name,
Message, extended by User ID, User Color, Badges, Emotes when user info is
enabled); and in every session the header is written exactly once, at
session start, as the first segment of the output file, before all data
rows. -/
theorem header_row_amended :
    writeCSVHeaderString false = "timestamp,channel,username,displayName,message\n" ∧
    writeCSVHeaderString true =
      "timestamp,channel,username,displayName,message,userId,userColor,badges,emotes\n" ∧
    headerLine false = "Timestamp,Channel,Username,Display Name,Message\n" ∧
    headerLine true =
      "Timestamp,Channel,Username,Display Name,Message,User ID,User Color,Badges,Emotes\n" ∧
    (∀ (p : NodeParams) (events : List SessionEvent) (df fk : Bool)
        (ops : List FsOp) (res : ExecResult) (prev : Option (List String)),
        execTrace p events df fk = Except.ok (ops, res) →
        ∃ dataRows, fileAfter prev ops =
          some (headerLine (effectiveIncludeUserInfo p) :: dataRows)) := by
  refine ⟨by decide, by decide, by decide, by decide, ?_⟩
  intro p events df fk ops res prev h
  obtain ⟨hops, -⟩ := execTrace_ok_shape h
  subst hops
  refine ⟨(cleanup (runSession (effectiveIncludeUserInfo p) execInit events)
      df fk).1.chunks, ?_⟩
  rw [fileAfter_writeFile, fileAfter_appendData]
  simp

/-- Concrete instance of the amended C7 theorem. -/
theorem header_row_amended_witness :
    ∃ dataRows, fileAfter none opsEx =
      some (headerLine (effectiveIncludeUserInfo pEx) :: dataRows) :=
  header_row_amended.2.2.2.2 pEx evEx false true opsEx resEx none (by decide)

/-- Claim C8 counterexample.  An invocation whose options collection does
not carry the flag behaves as if it were false, not true: the header and
the data rows lack the user-info columns. -/
theorem include_user_info_counterexample :
    effectiveIncludeUserInfo pNoFlag = false ∧
    headerLine (effectiveIncludeUserInfo pNoFlag) ≠ headerLine true ∧
    buildRow (effectiveIncludeUserInfo pNoFlag) m1ex ≠ buildRow true m1ex := by
  decide

/-- Claim C8 (amended).  The parameter schema declares true as the default
of the Include User Info option, but at runtime the truthiness test on the
options object enables the user-info columns only when the flag is
explicitly present and true; an absent flag behaves as false. -/
theorem include_user_info_amended :
    includeUserInfoSchemaDefault = true ∧
    ∀ p : NodeParams, effectiveIncludeUserInfo p = true ↔ p.includeUserInfo = some true := by
  refine ⟨rfl, ?_⟩
  intro p
  cases h : p.includeUserInfo with
  | none => simp [effectiveIncludeUserInfo, h]
  | some b => cases b <;> simp [effectiveIncludeUserInfo, h]

/-- Claim C9.  With the untilEnd stop condition, if the adapter never sets
isStreamEnded then no tick of the 1-second check interval resolves the
completion promise, whatever the elapsed time and whatever duration value
is around (no hidden timeout), so the session never completes. -/
theorem until_end_never_resolves :
    ∀ (isStreamEnded : Nat → Bool),
      (∀ n, isStreamEnded n = false) →
      ∀ (n elapsed maxDuration : Nat),
        stopCheck DurationType.untilEnd (isStreamEnded n) elapsed maxDuration = false := by
  intro se h n elapsed maxD
  simpa [stopCheck] using h n

/-- Concrete instance of the C9 theorem: even with a huge elapsed time and
a zero duration parameter the untilEnd check does not fire. -/
theorem until_end_never_resolves_witness :
    stopCheck DurationType.untilEnd ((fun _ => false) 0) 999999999 0 = false :=
  until_end_never_resolves (fun _ => false) (fun _ => rfl) 0 999999999 0

/-- Claim C10.  The header is written with fs.writeFileSync, which creates
or truncates the output file, so the file contents after a session are
independent of whatever the file held before the invocation: previous
contents are destroyed, never appended to. -/
theorem output_file_truncated :
    ∀ (p : NodeParams) (events : List SessionEvent) (df fk : Bool)
      (ops : List FsOp) (res : ExecResult) (prev prev' : Option (List String)),
      execTrace p events df fk = Except.ok (ops, res) →
      fileAfter prev ops = fileAfter prev' ops := by
  intro p events df fk ops res prev prev' h
  obtain ⟨hops, -⟩ := execTrace_ok_shape h
  subst hops
  rw [fileAfter_writeFile, fileAfter_writeFile]

/-- Concrete instance of the C10 theorem. -/
theorem output_file_truncated_witness :
    fileAfter (some ["OLD"]) opsEx = fileAfter none opsEx :=
  output_file_truncated pEx evEx false true opsEx resEx (some ["OLD"]) none (by decide)
